import Mathlib

set_option maxRecDepth 1000000

/-!
Verification development for the wsl-screenshot-cli core: the protocol
client (internal/clipboard), the capture engine (internal/poller) and the
daemon lifecycle manager (internal/daemon), shallowly embedded from the Go
source.  Bytes are modelled as `List Nat` (each entry a byte value),
machine words as `Nat` reduced modulo 2^32 where the source overflows, and
the line-oriented channel to the external process as a list of pending
lines plus the scanner error reported once the lines are exhausted.
-/

deriving instance DecidableEq for Except

namespace WslShot

/-- Byte values of an ASCII string, as Go's `[]byte(s)` for ASCII input. -/
def strBytes (s : String) : List Nat := s.toList.map Char.toNat

/-- Go `unicode.IsSpace`: the Unicode White_Space property, used by
`strings.TrimSpace`. -/
def goIsSpace (c : Char) : Bool :=
  let n := c.toNat
  (n = 32) || (9 ≤ n && n ≤ 13) || (n = 133) || (n = 160) || (n = 5760) ||
  (8192 ≤ n && n ≤ 8202) || (n = 8232) || (n = 8233) || (n = 8239) ||
  (n = 8287) || (n = 12288)

/-- Go `strings.TrimSpace`: drop leading and trailing White_Space. -/
def trimSpace (s : String) : String :=
  String.mk (((s.toList.dropWhile goIsSpace).reverse.dropWhile goIsSpace).reverse)

/-- Index of a character in the standard base64 alphabet
(`encoding/base64.StdEncoding`). -/
def b64Index (c : Char) : Option Nat :=
  let n := c.toNat
  if 65 ≤ n && n ≤ 90 then some (n - 65)
  else if 97 ≤ n && n ≤ 122 then some (n - 97 + 26)
  else if 48 ≤ n && n ≤ 57 then some (n - 48 + 52)
  else if n = 43 then some 62
  else if n = 47 then some 63
  else none

/-- Decode base64 four-character quanta (newlines already removed), with
`=` padding accepted only at the end, as Go `base64.StdEncoding`. -/
def b64Quanta : List Char → Option (List Nat)
  | [] => some []
  | a :: b :: c :: d :: rest =>
    match b64Index a, b64Index b with
    | some ia, some ib =>
      if c = '=' then
        if d = '=' && rest.isEmpty then some [ia * 4 + ib / 16] else none
      else
        match b64Index c with
        | some ic =>
          if d = '=' then
            if rest.isEmpty then some [ia * 4 + ib / 16, (ib % 16) * 16 + ic / 4]
            else none
          else
            match b64Index d with
            | some id =>
              match b64Quanta rest with
              | some bs =>
                some ([ia * 4 + ib / 16, (ib % 16) * 16 + ic / 4, (ic % 4) * 64 + id] ++ bs)
              | none => none
            | none => none
        | none => none
    | _, _ => none
  | _ => none

/-- Go `base64.StdEncoding.DecodeString`: ignores CR and LF, decodes
padded quanta; `none` models a decode error.  Decoding the empty string
yields `some []` (Go returns an empty, non-nil slice). -/
def base64Decode (s : String) : Option (List Nat) :=
  b64Quanta (s.toList.filter (fun c => !(c == '\r' || c == '\n')))

/-! SHA-256 (FIPS 180-4), the algorithm behind Go `crypto/sha256.Sum256`,
on 32-bit words carried as `Nat` reduced modulo 2^32. -/

/-- Reduce to a 32-bit word. -/
def w32 (x : Nat) : Nat := x % 4294967296

/-- Rotate a 32-bit word right by `n`. -/
def rotr32 (n x : Nat) : Nat := w32 ((x >>> n) ||| (x <<< (32 - n)))

/-- SHA-256 Ch: bitwise not is xor with the 32-bit mask. -/
def shaCh (x y z : Nat) : Nat := (x &&& y) ^^^ ((x ^^^ 4294967295) &&& z)

/-- SHA-256 Maj. -/
def shaMaj (x y z : Nat) : Nat := (x &&& y) ^^^ (x &&& z) ^^^ (y &&& z)

/-- SHA-256 Σ0. -/
def bigSigma0 (x : Nat) : Nat := rotr32 2 x ^^^ rotr32 13 x ^^^ rotr32 22 x

/-- SHA-256 Σ1. -/
def bigSigma1 (x : Nat) : Nat := rotr32 6 x ^^^ rotr32 11 x ^^^ rotr32 25 x

/-- SHA-256 σ0. -/
def smallSigma0 (x : Nat) : Nat := rotr32 7 x ^^^ rotr32 18 x ^^^ (x >>> 3)

/-- SHA-256 σ1. -/
def smallSigma1 (x : Nat) : Nat := rotr32 17 x ^^^ rotr32 19 x ^^^ (x >>> 10)

/-- The 64 SHA-256 round constants (FIPS 180-4 section 4.2.2, here in
decimal). -/
def sha256K : List Nat :=
  [1116352408, 1899447441, 3049323471, 3921009573, 961987163, 1508970993,
   2453635748, 2870763221, 3624381080, 310598401, 607225278, 1426881987,
   1925078388, 2162078206, 2614888103, 3248222580, 3835390401, 4022224774,
   264347078, 604807628, 770255983, 1249150122, 1555081692, 1996064986,
   2554220882, 2821834349, 2952996808, 3210313671, 3336571891, 3584528711,
   113926993, 338241895, 666307205, 773529912, 1294757372, 1396182291,
   1695183700, 1986661051, 2177026350, 2456956037, 2730485921, 2820302411,
   3259730800, 3345764771, 3516065817, 3600352804, 4094571909, 275423344,
   430227734, 506948616, 659060556, 883997877, 958139571, 1322822218,
   1537002063, 1747873779, 1955562222, 2024104815, 2227730452, 2361852424,
   2428436474, 2756734187, 3204031479, 3329325298]

/-- The SHA-256 working state (eight 32-bit words). -/
structure SHAState where
  a : Nat
  b : Nat
  c : Nat
  d : Nat
  e : Nat
  f : Nat
  g : Nat
  h : Nat
deriving DecidableEq

/-- Initial SHA-256 hash value (FIPS 180-4 section 5.3.3, in decimal). -/
def shaInit : SHAState :=
  ⟨1779033703, 3144134277, 1013904242, 2773480762,
   1359893119, 2600822924, 528734635, 1541459225⟩

/-- One SHA-256 compression round for a round constant and schedule word. -/
def shaRound (st : SHAState) (kw : Nat × Nat) : SHAState :=
  let t1 := w32 (st.h + bigSigma1 st.e + shaCh st.e st.f st.g + kw.1 + kw.2)
  let t2 := w32 (bigSigma0 st.a + shaMaj st.a st.b st.c)
  ⟨w32 (t1 + t2), st.a, st.b, st.c, w32 (st.d + t1), st.e, st.f, st.g⟩

/-- Extend the 16-word message block, appending `n` schedule words. -/
def extendW (w : List Nat) : Nat → List Nat
  | 0 => w
  | n + 1 =>
    let L := w.length
    let nw := w32 (smallSigma1 (w.getD (L - 2) 0) + w.getD (L - 7) 0 +
                   smallSigma0 (w.getD (L - 15) 0) + w.getD (L - 16) 0)
    extendW (w ++ [nw]) n

/-- Big-endian bytes (length `n`) of a value. -/
def beBytes : Nat → Nat → List Nat
  | 0, _ => []
  | n + 1, v => beBytes n (v / 256) ++ [v % 256]

/-- Group bytes into big-endian 32-bit words. -/
def bytesToWords : List Nat → List Nat
  | b0 :: b1 :: b2 :: b3 :: rest =>
    (b0 * 16777216 + b1 * 65536 + b2 * 256 + b3) :: bytesToWords rest
  | _ => []

/-- The four big-endian bytes of a 32-bit word. -/
def wordToBytes (w : Nat) : List Nat :=
  [w / 16777216 % 256, w / 65536 % 256, w / 256 % 256, w % 256]

/-- SHA-256 padding: append `0x80`, zeros, then the 64-bit bit length. -/
def shaPad (msg : List Nat) : List Nat :=
  let L := msg.length
  let k := (64 - ((L + 9) % 64)) % 64
  msg ++ (128 :: List.replicate k 0) ++ beBytes 8 (L * 8)

/-- Split into 64-byte blocks (structural recursion on a fuel bound that
the byte count never exceeds). -/
def chunksAux : Nat → List Nat → List (List Nat)
  | 0, _ => []
  | _, [] => []
  | fuel + 1, x :: xs => ((x :: xs).take 64) :: chunksAux fuel ((x :: xs).drop 64)

/-- Split into 64-byte blocks. -/
def chunks64 (l : List Nat) : List (List Nat) := chunksAux l.length l

/-- Compress one 64-byte block into the running hash state. -/
def compressBlock (h0 : SHAState) (block : List Nat) : SHAState :=
  let w := extendW (bytesToWords block) 48
  let st := (sha256K.zip w).foldl shaRound h0
  ⟨w32 (h0.a + st.a), w32 (h0.b + st.b), w32 (h0.c + st.c), w32 (h0.d + st.d),
   w32 (h0.e + st.e), w32 (h0.f + st.f), w32 (h0.g + st.g), w32 (h0.h + st.h)⟩

/-- SHA-256 digest (32 bytes) of a byte sequence. -/
def sha256 (msg : List Nat) : List Nat :=
  let st := (chunks64 (shaPad msg)).foldl compressBlock shaInit
  (([st.a, st.b, st.c, st.d, st.e, st.f, st.g, st.h]).map wordToBytes).flatten

/-- Lowercase hexadecimal digit. -/
def hexDigit (n : Nat) : Char := if n < 10 then Char.ofNat (48 + n) else Char.ofNat (87 + n)

/-- Lowercase hexadecimal rendering of bytes, as Go `fmt.Sprintf` with the
`x` verb on a byte array. -/
def bytesToHex (bs : List Nat) : String :=
  String.mk (bs.foldr (fun b acc => hexDigit (b / 16) :: hexDigit (b % 16) :: acc) [])

/-- SHA-256 digest rendered as lowercase hex. -/
def sha256Hex (msg : List Nat) : String := bytesToHex (sha256 msg)

namespace Clipboard

/-- The read side of the channel to the external process as the Protocol
Client sees it during one operation: `sendOk` is whether writing the
command line to stdin succeeds, `lines` the pending response lines the
scanner will deliver, and `scanErr` the scanner error reported by `Err()`
once `lines` is exhausted (`none` models a plain EOF: the peer exited). -/
structure Conn where
  sendOk : Bool
  lines : List String
  scanErr : Option String
deriving DecidableEq

/-- Errors of `Check`, one constructor per `return nil, fmt.Errorf`
branch in the source. -/
inductive CheckError
  | sendCheck
  | readResponse (e : String)
  | peerExited
  | readB64PeerExited
  | readEndPeerExited
  | expectedEnd (got : String)
  | decodeBase64
  | unexpectedResponse (line : String)
deriving DecidableEq

/-- `(*Client).Check` from internal/clipboard/clipboard.go: send `CHECK`,
read one trimmed line; `NONE` yields no image (`none`), `IMAGE` is
followed by one base64 payload line and an `END` terminator and yields
the decoded bytes, anything else is an error. -/
def Check (c : Conn) : Except CheckError (Option (List Nat)) :=
  if c.sendOk = false then .error .sendCheck
  else
    match c.lines with
    | [] =>
      match c.scanErr with
      | some e => .error (.readResponse e)
      | none => .error .peerExited
    | l :: rest =>
      let line := trimSpace l
      if line = "NONE" then .ok none
      else if line = "IMAGE" then
        match rest with
        | [] => .error .readB64PeerExited
        | lb :: rest2 =>
          let b64 := trimSpace lb
          match rest2 with
          | [] => .error .readEndPeerExited
          | le :: _ =>
            if trimSpace le ≠ "END" then .error (.expectedEnd (trimSpace le))
            else
              match base64Decode b64 with
              | some data => .ok (some data)
              | none => .error .decodeBase64
      else .error (.unexpectedResponse line)

/-- Errors of `(*Client).UpdateClipboard`. -/
inductive UpdateError
  | sendUpdate
  | readResponse (e : String)
  | peerExited
  | peerReported (msg : String)
  | unexpectedResponse (line : String)
deriving DecidableEq

/-- Outcome of `UpdateClipboard`: the result and the command line written
to the peer. -/
structure UpdateOut where
  result : Except UpdateError Unit
  sent : String
deriving DecidableEq

/-- `(*Client).UpdateClipboard`: send `UPDATE|wslPath|winPath`, read one
trimmed line; `OK` succeeds, an `ERR|` prefix carries a peer-reported
message, anything else is unexpected. -/
def UpdateClipboard (wslPath winPath : String) (c : Conn) : UpdateOut :=
  let cmd := ("UPDATE|") ++ wslPath ++ ("|") ++ winPath
  if c.sendOk = false then ⟨.error .sendUpdate, cmd⟩
  else
    match c.lines with
    | [] =>
      match c.scanErr with
      | some e => ⟨.error (.readResponse e), cmd⟩
      | none => ⟨.error .peerExited, cmd⟩
    | l :: _ =>
      let line := trimSpace l
      if line = "OK" then ⟨.ok (), cmd⟩
      else if line.startsWith ("ERR|") then ⟨.error (.peerReported (line.drop 4)), cmd⟩
      else ⟨.error (.unexpectedResponse line), cmd⟩

/-- Inputs to `NewClient` as observed on its environment: whether the two
pipes and `cmd.Start()` succeed, the first line the scanner delivers
(`none` when `Scan()` immediately fails), and the scanner error in the
failing case. -/
structure SpawnEnv where
  stdinPipeOk : Bool
  stdoutPipeOk : Bool
  startOk : Bool
  firstLine : Option String
  scanErr : Option String
deriving DecidableEq

/-- Errors of `NewClient`. -/
inductive NewClientError
  | stdinPipe
  | stdoutPipe
  | startFailed
  | waitingReady (e : String)
  | exitedBeforeReady
  | notReady (got : String)
deriving DecidableEq

/-- Outcome of `NewClient`: the result (`ok` models returning a usable
`*Client`) plus whether `cmd.Process.Kill()` and `cmd.Wait()` ran. -/
structure NewClientOut where
  result : Except NewClientError Unit
  killed : Bool
  waited : Bool
deriving DecidableEq

/-- `NewClient` from internal/clipboard/clipboard.go: spawn the process
and wait for the `READY` line; on a missing or mismatched readiness line
the process is killed and waited on and an error is returned. -/
def NewClient (env : SpawnEnv) : NewClientOut :=
  if env.stdinPipeOk = false then ⟨.error .stdinPipe, false, false⟩
  else if env.stdoutPipeOk = false then ⟨.error .stdoutPipe, false, false⟩
  else if env.startOk = false then ⟨.error .startFailed, false, false⟩
  else
    match env.firstLine with
    | none =>
      match env.scanErr with
      | some e => ⟨.error (.waitingReady e), true, true⟩
      | none => ⟨.error .exitedBeforeReady, true, true⟩
    | some l =>
      if trimSpace l = "READY" then ⟨.ok (), false, false⟩
      else ⟨.error (.notReady (trimSpace l)), true, true⟩

end Clipboard

namespace Poller

/-- The output directory as a flat map from file path to file content;
`os.Stat` is presence in the list and `os.WriteFile` of a fresh name
prepends an entry. -/
abbrev FS := List (String × List Nat)

/-- Whether a file at path `p` exists (the dedup marker probed with
`os.Stat`). -/
def fsHas (fs : FS) (p : String) : Bool := fs.any (fun e => e.1 == p)

/-- Number of files at path `p`. -/
def countPath (fs : FS) (p : String) : Nat := (fs.filter (fun e => e.1 == p)).length

/-- `filepath.Join dir name` for a clean directory path and a plain file
name: concatenation with a path separator. -/
def joinPath (dir name : String) : String := dir ++ ("/") ++ name

/-- `hashBytes` from internal/poller/poller.go: the lowercase hex SHA-256
of the data (`fmt.Sprintf` with the `x` verb on `sha256.Sum256(data)`). -/
def hashBytes (data : List Nat) : String := sha256Hex data

/-- Outcomes of the collaborators one `poll` call consults: the result of
`client.Check()` (`none` models a nil slice: no image), whether
`os.WriteFile` succeeds, the result of `wslToWinPath`, and the result of
`client.UpdateClipboard`. -/
structure PollEnv where
  checkRes : Except String (Option (List Nat))
  writeOk : Bool
  wslpathRes : Except String String
  updateRes : Except String Unit
deriving DecidableEq

/-- Outcome of one `poll` call: its returned error value, the resulting
output directory, and whether `UpdateClipboard` was invoked. -/
structure PollOut where
  result : Except String Unit
  fs : FS
  updateCalled : Bool
deriving DecidableEq

/-- `poll` from internal/poller/poller.go: check, hash, dedup by file
presence, save, translate the path and update the clipboard; translation
and update failures are warnings that do not fail the poll. -/
def poll (env : PollEnv) (outputDir : String) (fs : FS) : PollOut :=
  match env.checkRes with
  | .error e => ⟨.error (("check clipboard: ") ++ e), fs, false⟩
  | .ok none => ⟨.ok (), fs, false⟩
  | .ok (some pngData) =>
    let hash := hashBytes pngData
    let filename := hash ++ (".png")
    let filePath := joinPath outputDir filename
    if fsHas fs filePath then ⟨.ok (), fs, false⟩
    else if env.writeOk = false then ⟨.error (("write ") ++ filename), fs, false⟩
    else
      let fs2 : FS := (filePath, pngData) :: fs
      match env.wslpathRes with
      | .error _ => ⟨.ok (), fs2, false⟩
      | .ok _ =>
        match env.updateRes with
        | .error _ => ⟨.ok (), fs2, true⟩
        | .ok _ => ⟨.ok (), fs2, true⟩

/-- `maxConsecutiveErrors` from internal/poller/poller.go. -/
def maxConsecutiveErrors : Nat := 5

/-- Outcome of `poll` on one tick, abstracted to what `Run` branches on. -/
inductive TickRes
  | ok
  | err
deriving DecidableEq

/-- One iteration of `Run`'s select loop: either the context is cancelled
or the ticker fires and `poll` returns with the given outcome. -/
inductive Event
  | cancel
  | tick (r : TickRes)
deriving DecidableEq

/-- The loop state of `Run`: the identity of the active client (clients
are numbered by the factory call that created them), the number of
factory calls made so far, the `consecutiveErrors` counter, and the ids
already passed to `Close`, in order. -/
structure LoopState where
  client : Nat
  calls : Nat
  errors : Nat
  closed : List Nat
deriving DecidableEq

/-- The injected `ClientFactory`, abstracted to whether its `n`-th call
(counting from zero) succeeds. -/
structure RunCfg where
  factoryOk : Nat → Bool

/-- Result of one loop iteration: continue with a new state, or leave the
loop with `Run`'s return value and the final list of closed clients
(the deferred `client.Close()` included). -/
inductive StepOut
  | cont (st : LoopState)
  | stop (res : Except String Unit) (closed : List Nat)
deriving DecidableEq

/-- One iteration of `Run`'s select loop from internal/poller/poller.go:
cancellation closes the active client (the deferred close) and returns
nil; a successful poll resets `consecutiveErrors`; a failed poll
increments it, and at `maxConsecutiveErrors` the client is closed and
replaced through the factory (resetting the counter), a factory failure
ending the run with an error. -/
def step (cfg : RunCfg) (st : LoopState) (e : Event) : StepOut :=
  match e with
  | .cancel => .stop (.ok ()) (st.closed ++ [st.client])
  | .tick .ok => .cont { st with errors := 0 }
  | .tick .err =>
    let n := st.errors + 1
    if maxConsecutiveErrors ≤ n then
      if cfg.factoryOk st.calls then
        .cont { client := st.calls, calls := st.calls + 1, errors := 0,
                closed := st.closed ++ [st.client] }
      else .stop (.error ("restart clipboard client")) (st.closed ++ [st.client])
    else .cont { st with errors := n }

/-- Result of running the loop over a schedule of events: the loop
terminated with `Run`'s return value and the closed clients, or the
schedule ran out while the loop was still live in the given state. -/
inductive RunResult
  | finished (res : Except String Unit) (closed : List Nat)
  | running (st : LoopState)
deriving DecidableEq

/-- The select loop of `Run`, driven by a schedule of events. -/
def runFrom (cfg : RunCfg) (st : LoopState) : List Event → RunResult
  | [] => .running st
  | e :: rest =>
    match step cfg st e with
    | .cont st2 => runFrom cfg st2 rest
    | .stop res closed => .finished res closed

/-- `Run` from internal/poller/poller.go: obtain the first client from
the factory (failure there is fatal), then run the select loop. -/
def Run (cfg : RunCfg) (events : List Event) : RunResult :=
  if cfg.factoryOk 0 then runFrom cfg ⟨0, 1, 0, []⟩ events
  else .finished (.error ("start clipboard client")) []

/-- Loop invariant of `Run`: every client the factory produced before the
active one has been closed exactly once, in creation order, and the
active one has not. -/
def Inv (st : LoopState) : Prop :=
  st.calls = st.client + 1 ∧ st.closed = List.range st.client

end Poller

namespace Daemon

/-- The two marker files: content of the PID marker (the recorded process
id) and of the state marker (the recorded output directory), `none` when
the file is absent. -/
structure Markers where
  pid : Option Nat
  state : Option String
deriving DecidableEq

/-- Inputs `Run` consults: the value of the initial `RunningPID()` probe,
whether each `os.WriteFile` succeeds (a failed write leaves the file as
it was), and the value `pollFn` returns. -/
structure RunEnv where
  runningPID : Nat
  pidWriteOk : Bool
  stateWriteOk : Bool
  pollRes : Except String Unit
deriving DecidableEq

/-- Outcome of `Run`: its returned error value, the marker files on
return, and the marker files while `pollFn` runs (`none` when `pollFn`
was never invoked). -/
structure RunOut where
  result : Except String Unit
  markers : Markers
  duringPoll : Option Markers
deriving DecidableEq

/-- `Run` from internal/daemon (the daemon lifecycle manager): bail out
when an instance is already running; write the PID marker (deferring its
removal), write the state marker (deferring its removal only once that
write succeeded), then invoke `pollFn` and return its result, the
deferred removals running on every return path after registration. -/
def Run (env : RunEnv) (selfPid : Nat) (outputDir : String) (m : Markers) : RunOut :=
  if env.runningPID ≠ 0 then ⟨.ok (), m, none⟩
  else if env.pidWriteOk = false then ⟨.error ("Failed to write PID file"), m, none⟩
  else if env.stateWriteOk = false then
    ⟨.error ("Failed to write state file"), ⟨none, m.state⟩, none⟩
  else ⟨env.pollRes, ⟨none, none⟩, some ⟨some selfPid, some outputDir⟩⟩

end Daemon

/-! Theorems.  Each claim of the specification gets one theorem below;
shared helper lemmas come first. -/

open Clipboard in
/-- `Check` on a first line that is neither `NONE` nor `IMAGE` after
trimming reports it as unexpected, whatever follows on the channel. -/
theorem check_unexpected (l : String) (rest : List String) (er : Option String)
    (hn : trimSpace l ≠ ("NONE")) (hi : trimSpace l ≠ ("IMAGE")) :
    Check ⟨true, l :: rest, er⟩ = .error (.unexpectedResponse (trimSpace l)) := by
  cases rest with
  | nil =>
    have e : Check ⟨true, [l], er⟩ =
        (if trimSpace l = ("NONE") then .ok none
         else if trimSpace l = ("IMAGE") then .error .readB64PeerExited
         else .error (.unexpectedResponse (trimSpace l))) := rfl
    rw [e, if_neg hn, if_neg hi]
  | cons lb rest2 =>
    cases rest2 with
    | nil =>
      have e : Check ⟨true, [l, lb], er⟩ =
          (if trimSpace l = ("NONE") then .ok none
           else if trimSpace l = ("IMAGE") then .error .readEndPeerExited
           else .error (.unexpectedResponse (trimSpace l))) := rfl
      rw [e, if_neg hn, if_neg hi]
    | cons le2 tail =>
      have e : Check ⟨true, l :: lb :: le2 :: tail, er⟩ =
          (if trimSpace l = ("NONE") then .ok none
           else if trimSpace l = ("IMAGE") then
             (if trimSpace le2 ≠ ("END") then .error (.expectedEnd (trimSpace le2))
              else
                match base64Decode (trimSpace lb) with
                | some data => .ok (some data)
                | none => .error .decodeBase64)
           else .error (.unexpectedResponse (trimSpace l))) := rfl
      rw [e, if_neg hn, if_neg hi]

open Clipboard in
/-- `Check`'s outcome depends on the first response line only through its
trimmed content. -/
theorem check_first_congr (a b : String) (ls : List String) (er : Option String)
    (h : trimSpace a = trimSpace b) :
    Check ⟨true, a :: ls, er⟩ = Check ⟨true, b :: ls, er⟩ := by
  cases ls with
  | nil =>
    have e : ∀ s : String, Check ⟨true, [s], er⟩ =
        (if trimSpace s = ("NONE") then .ok none
         else if trimSpace s = ("IMAGE") then .error .readB64PeerExited
         else .error (.unexpectedResponse (trimSpace s))) := fun s => rfl
    rw [e a, e b, h]
  | cons lb rest2 =>
    cases rest2 with
    | nil =>
      have e : ∀ s : String, Check ⟨true, [s, lb], er⟩ =
          (if trimSpace s = ("NONE") then .ok none
           else if trimSpace s = ("IMAGE") then .error .readEndPeerExited
           else .error (.unexpectedResponse (trimSpace s))) := fun s => rfl
      rw [e a, e b, h]
    | cons le2 tail =>
      have e : ∀ s : String, Check ⟨true, s :: lb :: le2 :: tail, er⟩ =
          (if trimSpace s = ("NONE") then .ok none
           else if trimSpace s = ("IMAGE") then
             (if trimSpace le2 ≠ ("END") then .error (.expectedEnd (trimSpace le2))
              else
                match base64Decode (trimSpace lb) with
                | some data => .ok (some data)
                | none => .error .decodeBase64)
           else .error (.unexpectedResponse (trimSpace s))) := fun s => rfl
      rw [e a, e b, h]

open Clipboard in
/-- `Check`'s outcome depends on the payload line only through its
trimmed content. -/
theorem check_payload_congr (a b : String) (ls : List String) (er : Option String)
    (h : trimSpace a = trimSpace b) :
    Check ⟨true, ("IMAGE") :: a :: ls, er⟩ = Check ⟨true, ("IMAGE") :: b :: ls, er⟩ := by
  cases ls with
  | nil => rfl
  | cons le2 tail =>
    have e : ∀ s : String, Check ⟨true, ("IMAGE") :: s :: le2 :: tail, er⟩ =
        (if trimSpace le2 ≠ ("END") then .error (.expectedEnd (trimSpace le2))
         else
           match base64Decode (trimSpace s) with
           | some data => .ok (some data)
           | none => .error .decodeBase64) := fun s => rfl
    rw [e a, e b, h]

open Clipboard in
/-- C3: `Check`'s accepted and rejected response shapes, stated over
arbitrary channel contents: a literal `NONE` line yields an empty result,
`IMAGE` with one decodable base64 payload line and an `END` terminator
yields the decoded bytes, a missing or wrong terminator, an undecodable
payload, or any other first line is an error, and so is a read failing
because the channel closed. -/
theorem C3_check_response_shapes (rest : List String) (p le l : String) (d : List Nat)
    (er : Option String) (msg : String) :
    (Check ⟨true, ("NONE") :: rest, er⟩ = .ok none)
    ∧ (base64Decode (trimSpace p) = some d →
        Check ⟨true, ("IMAGE") :: p :: ("END") :: rest, er⟩ = .ok (some d))
    ∧ (Check ⟨true, [("IMAGE")], er⟩ = .error .readB64PeerExited)
    ∧ (Check ⟨true, [("IMAGE"), p], er⟩ = .error .readEndPeerExited)
    ∧ (trimSpace le ≠ ("END") →
        Check ⟨true, ("IMAGE") :: p :: le :: rest, er⟩ = .error (.expectedEnd (trimSpace le)))
    ∧ (base64Decode (trimSpace p) = none →
        Check ⟨true, ("IMAGE") :: p :: ("END") :: rest, er⟩ = .error .decodeBase64)
    ∧ (trimSpace l ≠ ("NONE") → trimSpace l ≠ ("IMAGE") →
        Check ⟨true, l :: rest, er⟩ = .error (.unexpectedResponse (trimSpace l)))
    ∧ (Check ⟨true, [], none⟩ = .error .peerExited)
    ∧ (Check ⟨true, [], some msg⟩ = .error (.readResponse msg)) := by
  have e1 : ∀ (q : String) (rs : List String),
      Check ⟨true, ("IMAGE") :: q :: ("END") :: rs, er⟩ =
        (match base64Decode (trimSpace q) with
         | some data => .ok (some data)
         | none => .error .decodeBase64) := fun q rs => rfl
  have e2 : Check ⟨true, ("IMAGE") :: p :: le :: rest, er⟩ =
      (if trimSpace le ≠ ("END") then .error (.expectedEnd (trimSpace le))
       else
         match base64Decode (trimSpace p) with
         | some data => .ok (some data)
         | none => .error .decodeBase64) := rfl
  refine ⟨rfl, fun hd => ?_, rfl, rfl, fun hne => ?_, fun hd => ?_, fun hn hi => ?_, rfl, rfl⟩
  · rw [e1 p rest, hd]
  · rw [e2, if_pos hne]
  · rw [e1 p rest, hd]
  · exact check_unexpected l rest er hn hi

open Clipboard in
/-- C3 witness: concrete channel contents exercising the image, framing
error and unexpected-response shapes. -/
theorem C3_check_response_shapes_witness :
    Check ⟨true, [("IMAGE"), ("aGk="), ("END")], none⟩ = .ok (some [104, 105])
    ∧ Check ⟨true, [("IMAGE"), ("!"), ("END")], none⟩ = .error .decodeBase64
    ∧ Check ⟨true, [("IMAGE"), ("aGk="), ("FIN")], none⟩ = .error (.expectedEnd ("FIN"))
    ∧ Check ⟨true, [("HELLO")], none⟩ = .error (.unexpectedResponse ("HELLO")) := by
  have h1 := C3_check_response_shapes [] ("aGk=") ("FIN") ("HELLO") [104, 105] none ("m")
  have h2 := C3_check_response_shapes [] ("!") ("FIN") ("HELLO") [104, 105] none ("m")
  exact ⟨h1.2.1 (by decide), h2.2.2.2.2.2.1 (by decide),
    h1.2.2.2.2.1 (by decide), h1.2.2.2.2.2.2.1 (by decide) (by decide)⟩

open Clipboard in
/-- C7: the `NewClient` handshake, given that both pipes and the process
start succeed: a usable client is returned exactly when the first line,
trimmed, is the `READY` literal; when no line arrives or the line
mismatches, an error is returned and the process was killed and
waited-on. -/
theorem C7_handshake (env : SpawnEnv)
    (h1 : env.stdinPipeOk = true) (h2 : env.stdoutPipeOk = true) (h3 : env.startOk = true) :
    ((NewClient env).result = .ok () ↔
      ∃ l, env.firstLine = some l ∧ trimSpace l = ("READY"))
    ∧ (env.firstLine = none →
        (NewClient env).result ≠ .ok ()
        ∧ (NewClient env).killed = true ∧ (NewClient env).waited = true)
    ∧ (∀ l, env.firstLine = some l → trimSpace l ≠ ("READY") →
        NewClient env = ⟨.error (.notReady (trimSpace l)), true, true⟩) := by
  obtain ⟨si, so, sa, fl, se⟩ := env
  dsimp only at h1 h2 h3
  subst h1 h2 h3
  have eN : ∀ (fl2 : Option String) (se2 : Option String),
      NewClient ⟨true, true, true, fl2, se2⟩ =
        (match fl2 with
         | none =>
           match se2 with
           | some e => ⟨.error (.waitingReady e), true, true⟩
           | none => ⟨.error .exitedBeforeReady, true, true⟩
         | some l2 =>
           if trimSpace l2 = ("READY") then ⟨.ok (), false, false⟩
           else ⟨.error (.notReady (trimSpace l2)), true, true⟩) := fun fl2 se2 => rfl
  refine ⟨?_, ?_, ?_⟩
  · rw [eN fl se]
    cases fl with
    | none => cases se <;> simp
    | some l =>
      by_cases hr : trimSpace l = ("READY")
      · simp [hr]
      · simp [hr]
  · intro hn
    subst hn
    rw [eN none se]
    cases se <;> simp
  · intro l hl hr
    subst hl
    rw [eN (some l) se]
    simp [hr]

open Clipboard in
/-- C7 witness: a process that starts and answers with the exact `READY`
literal yields a usable client; a process answering `BOOT` is killed and
waited-on. -/
theorem C7_handshake_witness :
    ((NewClient ⟨true, true, true, some ("READY"), none⟩).result = .ok () ↔
      ∃ l, (some ("READY") : Option String) = some l ∧ trimSpace l = ("READY"))
    ∧ NewClient ⟨true, true, true, some ("BOOT"), none⟩ =
        ⟨.error (.notReady (trimSpace ("BOOT"))), true, true⟩ := by
  have ha := C7_handshake ⟨true, true, true, some ("READY"), none⟩ rfl rfl rfl
  have hb := C7_handshake ⟨true, true, true, some ("BOOT"), none⟩ rfl rfl rfl
  exact ⟨ha.1, hb.2.2 ("BOOT") rfl (by decide)⟩

open Clipboard in
/-- C9: every line read by `NewClient`, `Check` and `UpdateClipboard` is
compared against the protocol literals only after trimming surrounding
whitespace: replacing any read line by one with the same trimmed content
leaves each operation's outcome unchanged, and in particular a trailing
carriage return on the readiness literal is accepted. -/
theorem C9_trim_normalization (a b p w1 w2 : String) (rest : List String) (er : Option String)
    (h : trimSpace a = trimSpace b) :
    NewClient ⟨true, true, true, some a, er⟩ = NewClient ⟨true, true, true, some b, er⟩
    ∧ Check ⟨true, a :: rest, er⟩ = Check ⟨true, b :: rest, er⟩
    ∧ Check ⟨true, ("IMAGE") :: a :: rest, er⟩ = Check ⟨true, ("IMAGE") :: b :: rest, er⟩
    ∧ Check ⟨true, ("IMAGE") :: p :: a :: rest, er⟩ =
        Check ⟨true, ("IMAGE") :: p :: b :: rest, er⟩
    ∧ UpdateClipboard w1 w2 ⟨true, a :: rest, er⟩ = UpdateClipboard w1 w2 ⟨true, b :: rest, er⟩
    ∧ trimSpace ("READY\r") = ("READY") := by
  have eN : ∀ s : String, NewClient ⟨true, true, true, some s, er⟩ =
      (if trimSpace s = ("READY") then ⟨.ok (), false, false⟩
       else ⟨.error (.notReady (trimSpace s)), true, true⟩) := fun s => rfl
  have eE : ∀ (s : String) (ls : List String),
      Check ⟨true, ("IMAGE") :: p :: s :: ls, er⟩ =
        (if trimSpace s ≠ ("END") then .error (.expectedEnd (trimSpace s))
         else
           match base64Decode (trimSpace p) with
           | some data => .ok (some data)
           | none => .error .decodeBase64) := fun s ls => rfl
  have eU : ∀ (s : String) (ls : List String), UpdateClipboard w1 w2 ⟨true, s :: ls, er⟩ =
      (if trimSpace s = ("OK") then ⟨.ok (), ("UPDATE|") ++ w1 ++ ("|") ++ w2⟩
       else if (trimSpace s).startsWith ("ERR|") then
         ⟨.error (.peerReported ((trimSpace s).drop 4)), ("UPDATE|") ++ w1 ++ ("|") ++ w2⟩
       else ⟨.error (.unexpectedResponse (trimSpace s)), ("UPDATE|") ++ w1 ++ ("|") ++ w2⟩) :=
    fun s ls => rfl
  refine ⟨?_, ?_, ?_, ?_, ?_, by decide⟩
  · rw [eN a, eN b, h]
  · exact check_first_congr a b rest er h
  · exact check_payload_congr a b rest er h
  · rw [eE a rest, eE b rest, h]
  · rw [eU a rest, eU b rest, h]

/-- A path that no file of the directory has contributes zero files. -/
theorem countPath_zero (fs : Poller.FS) (p : String) (h : Poller.fsHas fs p = false) :
    Poller.countPath fs p = 0 := by
  simp [Poller.fsHas] at h
  simp [Poller.countPath]
  exact h

/-- Writing a file at a previously absent path makes it the unique file
at that path. -/
theorem countPath_cons_self (fs : Poller.FS) (p : String) (B : List Nat)
    (h0 : Poller.countPath fs p = 0) : Poller.countPath ((p, B) :: fs) p = 1 := by
  simp [Poller.countPath] at h0 ⊢
  exact h0

/-- `poll` on a new image with a succeeding write: no error is returned
and exactly the fingerprint-named file with exactly the image bytes is
added to the directory, whatever the translation and clipboard-update
collaborators do. -/
theorem poll_writes (B : List Nat) (dir : String) (fs : Poller.FS) (env : Poller.PollEnv)
    (h : env.checkRes = .ok (some B)) (hw : env.writeOk = true)
    (hfresh : Poller.fsHas fs (Poller.joinPath dir (Poller.hashBytes B ++ (".png"))) = false) :
    (Poller.poll env dir fs).result = .ok ()
    ∧ (Poller.poll env dir fs).fs =
        (Poller.joinPath dir (Poller.hashBytes B ++ (".png")), B) :: fs := by
  obtain ⟨cr, wo, wr, ur⟩ := env
  dsimp only at h hw
  subst h
  subst hw
  cases wr <;> cases ur <;> simp [Poller.poll, hfresh]

/-- `poll` on an image whose fingerprint-named file already exists is a
dedup hit: nothing is written, no update is attempted, no error. -/
theorem poll_dedup (B : List Nat) (dir : String) (fs : Poller.FS) (env : Poller.PollEnv)
    (h : env.checkRes = .ok (some B))
    (hhas : Poller.fsHas fs (Poller.joinPath dir (Poller.hashBytes B ++ (".png"))) = true) :
    Poller.poll env dir fs = ⟨.ok (), fs, false⟩ := by
  simp [Poller.poll, h, hhas]

open Clipboard in
/-- C9 witness: a readiness line and response lines carrying a trailing
carriage return (Windows line endings) behave exactly as the bare
literals. -/
theorem C9_trim_normalization_witness :
    NewClient ⟨true, true, true, some ("READY\r"), none⟩ =
      NewClient ⟨true, true, true, some ("READY"), none⟩
    ∧ Check ⟨true, ("NONE\r") :: [], none⟩ = Check ⟨true, ("NONE") :: [], none⟩
    ∧ UpdateClipboard ("/a") ("b") ⟨true, ("OK\r") :: [], none⟩ =
        UpdateClipboard ("/a") ("b") ⟨true, ("OK") :: [], none⟩ := by
  have h1 := C9_trim_normalization ("READY\r") ("READY") ("") ("/a") ("b") [] none (by decide)
  have h2 := C9_trim_normalization ("NONE\r") ("NONE") ("") ("/a") ("b") [] none (by decide)
  have h3 := C9_trim_normalization ("OK\r") ("OK") ("") ("/a") ("b") [] none (by decide)
  exact ⟨h1.1, h2.2.1, h3.2.2.2.2.1⟩

/-- C1: dedup idempotence of the capture pipeline.  Capturing the same
bytes `B` twice against the same output directory leaves exactly one file
named by `B`'s fingerprint; the second run discards the artifact without
touching the directory, reports no error, and does not invoke
`UpdateClipboard`, so the clipboard update fires at most once across both
runs. -/
theorem C1_dedup_idempotence (B : List Nat) (dir : String) (fs : Poller.FS)
    (env1 env2 : Poller.PollEnv)
    (h1 : env1.checkRes = .ok (some B)) (h2 : env2.checkRes = .ok (some B))
    (hw : env1.writeOk = true)
    (hfresh : Poller.fsHas fs (Poller.joinPath dir (Poller.hashBytes B ++ (".png"))) = false) :
    Poller.countPath (Poller.poll env2 dir (Poller.poll env1 dir fs).fs).fs
        (Poller.joinPath dir (Poller.hashBytes B ++ (".png"))) = 1
    ∧ Poller.poll env2 dir (Poller.poll env1 dir fs).fs =
        ⟨.ok (), (Poller.poll env1 dir fs).fs, false⟩
    ∧ (Poller.poll env1 dir fs).result = .ok ()
    ∧ ((if (Poller.poll env1 dir fs).updateCalled then 1 else 0)
        + (if (Poller.poll env2 dir (Poller.poll env1 dir fs).fs).updateCalled then 1 else 0))
        ≤ 1 := by
  obtain ⟨hr1, hf1⟩ := poll_writes B dir fs env1 h1 hw hfresh
  have hhas : Poller.fsHas ((Poller.joinPath dir (Poller.hashBytes B ++ (".png")), B) :: fs)
      (Poller.joinPath dir (Poller.hashBytes B ++ (".png"))) = true := by
    simp [Poller.fsHas]
  have hd2 : Poller.poll env2 dir (Poller.poll env1 dir fs).fs =
      ⟨.ok (), (Poller.poll env1 dir fs).fs, false⟩ := by
    rw [hf1]
    exact poll_dedup B dir _ env2 h2 hhas
  refine ⟨?_, hd2, hr1, ?_⟩
  · rw [hd2]
    dsimp only
    rw [hf1]
    exact countPath_cons_self fs _ B (countPath_zero fs _ hfresh)
  · rw [hd2]
    dsimp only
    cases (Poller.poll env1 dir fs).updateCalled <;> simp

/-- C1 witness: capturing the bytes `[1, 2, 3]` twice into an empty
directory. -/
theorem C1_dedup_idempotence_witness :
    Poller.countPath
        (Poller.poll ⟨.ok (some [1, 2, 3]), true, .error ("no wslpath"), .ok ()⟩ ("/o")
          (Poller.poll ⟨.ok (some [1, 2, 3]), true, .ok ("C:o"), .ok ()⟩ ("/o") []).fs).fs
        (Poller.joinPath ("/o") (Poller.hashBytes [1, 2, 3] ++ (".png"))) = 1
    ∧ Poller.poll ⟨.ok (some [1, 2, 3]), true, .error ("no wslpath"), .ok ()⟩ ("/o")
        (Poller.poll ⟨.ok (some [1, 2, 3]), true, .ok ("C:o"), .ok ()⟩ ("/o") []).fs =
      ⟨.ok (), (Poller.poll ⟨.ok (some [1, 2, 3]), true, .ok ("C:o"), .ok ()⟩ ("/o") []).fs,
        false⟩ := by
  have h := C1_dedup_idempotence [1, 2, 3] ("/o") []
    ⟨.ok (some [1, 2, 3]), true, .ok ("C:o"), .ok ()⟩
    ⟨.ok (some [1, 2, 3]), true, .error ("no wslpath"), .ok ()⟩ rfl rfl rfl rfl
  exact ⟨h.1, h.2.1⟩

/-- C4: fingerprint correctness.  The fingerprint is the SHA-256 digest
of exactly the image bytes rendered as lowercase hexadecimal, a persisted
artifact is the file named by that hex stem with `.png` in the output
directory whose content is exactly the bytes, and for the bytes of
`hello world` the stem is the well-known SHA-256 test vector. -/
theorem C4_fingerprint (B : List Nat) (dir : String) (fs : Poller.FS) (env : Poller.PollEnv)
    (h : env.checkRes = .ok (some B)) (hw : env.writeOk = true)
    (hfresh : Poller.fsHas fs (Poller.joinPath dir (sha256Hex B ++ (".png"))) = false) :
    Poller.hashBytes B = sha256Hex B
    ∧ (Poller.poll env dir fs).fs = (Poller.joinPath dir (sha256Hex B ++ (".png")), B) :: fs
    ∧ Poller.hashBytes (strBytes ("hello world")) =
        ("b94d27b9934d3e08a52e52d7da7dabfac484efe37a5380ee9088f7ace2efcde9") := by
  refine ⟨rfl, ?_, by decide⟩
  exact (poll_writes B dir fs env h hw hfresh).2

/-- C4 witness: the bytes of `hello world` captured into an empty
directory. -/
theorem C4_fingerprint_witness :
    Poller.hashBytes (strBytes ("hello world")) = sha256Hex (strBytes ("hello world"))
    ∧ (Poller.poll ⟨.ok (some (strBytes ("hello world"))), true, .ok ("C:w"), .ok ()⟩
          ("/shots") []).fs =
        (Poller.joinPath ("/shots") (sha256Hex (strBytes ("hello world")) ++ (".png")),
          strBytes ("hello world")) :: []
    ∧ Poller.hashBytes (strBytes ("hello world")) =
        ("b94d27b9934d3e08a52e52d7da7dabfac484efe37a5380ee9088f7ace2efcde9") :=
  C4_fingerprint (strBytes ("hello world")) ("/shots") []
    ⟨.ok (some (strBytes ("hello world"))), true, .ok ("C:w"), .ok ()⟩ rfl rfl rfl

/-- C6: side-effect failures are non-fatal.  On a new image, if path
translation fails the artifact file is still written, no clipboard update
is attempted and the poll returns no error; if translation succeeds and
`UpdateClipboard` fails, the file is likewise kept and the poll returns
no error; and a tick whose poll returns no error resets the circuit
breaker's consecutive-failure counter instead of incrementing it. -/
theorem C6_side_effect_failures (B : List Nat) (dir : String) (fs : Poller.FS)
    (env : Poller.PollEnv) (e : String)
    (h : env.checkRes = .ok (some B)) (hw : env.writeOk = true)
    (hfresh : Poller.fsHas fs (Poller.joinPath dir (Poller.hashBytes B ++ (".png"))) = false) :
    (env.wslpathRes = .error e →
      Poller.poll env dir fs =
        ⟨.ok (), (Poller.joinPath dir (Poller.hashBytes B ++ (".png")), B) :: fs, false⟩)
    ∧ (∀ w, env.wslpathRes = .ok w → env.updateRes = .error e →
      Poller.poll env dir fs =
        ⟨.ok (), (Poller.joinPath dir (Poller.hashBytes B ++ (".png")), B) :: fs, true⟩)
    ∧ (∀ (cfg : Poller.RunCfg) (st : Poller.LoopState),
        Poller.step cfg st (.tick .ok) = .cont { st with errors := 0 }) := by
  obtain ⟨cr, wo, wr, ur⟩ := env
  dsimp only at h hw
  subst h
  subst hw
  refine ⟨fun hwr => ?_, fun w hwr hur => ?_, fun cfg st => rfl⟩
  · dsimp only at hwr
    subst hwr
    cases ur <;> simp [Poller.poll, hfresh]
  · dsimp only at hwr hur
    subst hwr
    subst hur
    simp [Poller.poll, hfresh]

/-- C6 witness: a translation collaborator that always fails, then an
update collaborator that always fails, on the bytes `[7]`. -/
theorem C6_side_effect_failures_witness :
    Poller.poll ⟨.ok (some [7]), true, .error ("boom"), .ok ()⟩ ("/o") [] =
      ⟨.ok (), (Poller.joinPath ("/o") (Poller.hashBytes [7] ++ (".png")), [7]) :: [], false⟩
    ∧ Poller.poll ⟨.ok (some [7]), true, .ok ("C:x"), .error ("boom")⟩ ("/o") [] =
      ⟨.ok (), (Poller.joinPath ("/o") (Poller.hashBytes [7] ++ (".png")), [7]) :: [], true⟩ := by
  have ha := C6_side_effect_failures [7] ("/o") []
    ⟨.ok (some [7]), true, .error ("boom"), .ok ()⟩ ("boom") rfl rfl rfl
  have hb := C6_side_effect_failures [7] ("/o") []
    ⟨.ok (some [7]), true, .ok ("C:x"), .error ("boom")⟩ ("boom") rfl rfl rfl
  exact ⟨ha.1 rfl, hb.2.1 ("C:x") rfl rfl⟩

/-- C10: the empty-payload edge case.  An `IMAGE` line with an empty
base64 payload line and a valid `END` terminator makes `Check` return a
present-but-empty byte sequence, which the pipeline persists as a
zero-byte file named by the SHA-256 fingerprint of the empty sequence;
this is distinguished from `NONE`, for which `Check` reports absence and
the pipeline writes nothing. -/
theorem C10_empty_payload (er : Option String) (dir : String) (fs : Poller.FS)
    (env env2 : Poller.PollEnv)
    (h : env.checkRes = .ok (some []))
    (hw : env.writeOk = true)
    (hfresh : Poller.fsHas fs (Poller.joinPath dir (Poller.hashBytes [] ++ (".png"))) = false)
    (h2 : env2.checkRes = .ok none) :
    Clipboard.Check ⟨true, [("IMAGE"), (""), ("END")], er⟩ = .ok (some [])
    ∧ Clipboard.Check ⟨true, [("NONE")], er⟩ = .ok none
    ∧ (Poller.poll env dir fs).fs =
        (Poller.joinPath dir (Poller.hashBytes [] ++ (".png")), ([] : List Nat)) :: fs
    ∧ Poller.hashBytes ([] : List Nat) =
        ("e3b0c44298fc1c149afbf4c8996fb92427ae41e4649b934ca495991b7852b855")
    ∧ Poller.poll env2 dir fs = ⟨.ok (), fs, false⟩ := by
  refine ⟨rfl, rfl, (poll_writes [] dir fs env h hw hfresh).2, by decide, ?_⟩
  obtain ⟨cr2, wo2, wr2, ur2⟩ := env2
  dsimp only at h2
  subst h2
  rfl

/-- C2: the circuit breaker of `Run`.  A failing poll below the threshold
only increments the consecutive-failure counter; the fifth consecutive
failure closes the active session and replaces it through the factory
exactly once with the counter reset to zero before polling resumes; a
factory failure at that point terminates the run with an error; a
successful poll resets the counter; and from a fresh start five
consecutive failing ticks leave the loop running on the single
replacement session with the counter at zero and exactly the first
session closed. -/
theorem C2_circuit_breaker (cfg : Poller.RunCfg) (st : Poller.LoopState) :
    (st.errors + 1 < Poller.maxConsecutiveErrors →
      Poller.step cfg st (.tick .err) = .cont { st with errors := st.errors + 1 })
    ∧ (st.errors = 4 → cfg.factoryOk st.calls = true →
      Poller.step cfg st (.tick .err) =
        .cont ⟨st.calls, st.calls + 1, 0, st.closed ++ [st.client]⟩)
    ∧ (st.errors = 4 → cfg.factoryOk st.calls = false →
      Poller.step cfg st (.tick .err) =
        .stop (.error ("restart clipboard client")) (st.closed ++ [st.client]))
    ∧ (Poller.step cfg st (.tick .ok) = .cont { st with errors := 0 })
    ∧ (cfg.factoryOk 0 = true → cfg.factoryOk 1 = true →
      Poller.Run cfg (List.replicate 5 (.tick .err)) = .running ⟨1, 2, 0, [0]⟩) := by
  have eS : Poller.step cfg st (.tick .err) =
      (if Poller.maxConsecutiveErrors ≤ st.errors + 1 then
        (if cfg.factoryOk st.calls = true then
          .cont { client := st.calls, calls := st.calls + 1, errors := 0,
                  closed := st.closed ++ [st.client] }
         else .stop (.error ("restart clipboard client")) (st.closed ++ [st.client]))
       else .cont { st with errors := st.errors + 1 }) := rfl
  refine ⟨fun hlt => ?_, fun h4 hf => ?_, fun h4 hf => ?_, rfl, fun hf0 hf1 => ?_⟩
  · rw [eS, if_neg (Nat.not_le.mpr hlt)]
  · rw [eS, h4]
    rw [if_pos (by decide), if_pos hf]
  · rw [eS, h4]
    rw [if_pos (by decide), if_neg (by simp [hf])]
  · simp [Poller.Run, Poller.runFrom, Poller.step, Poller.maxConsecutiveErrors,
      hf0, hf1, List.replicate]

/-- C2 witness: a factory that always succeeds, then one that always
fails, at the threshold, plus a run of five failing ticks. -/
theorem C2_circuit_breaker_witness :
    Poller.step ⟨fun _ => true⟩ ⟨0, 1, 4, []⟩ (.tick .err) = .cont ⟨1, 2, 0, [0]⟩
    ∧ Poller.step ⟨fun _ => false⟩ ⟨0, 1, 4, []⟩ (.tick .err) =
        .stop (.error ("restart clipboard client")) [0]
    ∧ Poller.Run ⟨fun _ => true⟩ (List.replicate 5 (.tick .err)) = .running ⟨1, 2, 0, [0]⟩ := by
  have ha := C2_circuit_breaker ⟨fun _ => true⟩ ⟨0, 1, 4, []⟩
  have hb := C2_circuit_breaker ⟨fun _ => false⟩ ⟨0, 1, 4, []⟩
  exact ⟨ha.2.1 rfl rfl, hb.2.2.1 rfl rfl, ha.2.2.2.2 rfl rfl⟩

/-- A loop step that continues preserves the invariant of `Run`'s loop. -/
theorem step_cont_inv (cfg : Poller.RunCfg) (st st2 : Poller.LoopState) (e : Poller.Event)
    (hi : Poller.Inv st) (h : Poller.step cfg st e = .cont st2) : Poller.Inv st2 := by
  cases e with
  | cancel => simp [Poller.step] at h
  | tick r =>
    cases r with
    | ok =>
      rw [show Poller.step cfg st (.tick .ok) = .cont { st with errors := 0 } from rfl] at h
      injection h with h2
      subst h2
      exact hi
    | err =>
      have eS : Poller.step cfg st (.tick .err) =
          (if Poller.maxConsecutiveErrors ≤ st.errors + 1 then
            (if cfg.factoryOk st.calls = true then
              .cont { client := st.calls, calls := st.calls + 1, errors := 0,
                      closed := st.closed ++ [st.client] }
             else .stop (.error ("restart clipboard client")) (st.closed ++ [st.client]))
           else .cont { st with errors := st.errors + 1 }) := rfl
      rw [eS] at h
      by_cases h5 : Poller.maxConsecutiveErrors ≤ st.errors + 1
      · rw [if_pos h5] at h
        by_cases hf : cfg.factoryOk st.calls = true
        · rw [if_pos hf] at h
          injection h with h2
          subst h2
          refine ⟨rfl, ?_⟩
          show st.closed ++ [st.client] = List.range st.calls
          rw [hi.2, ← List.range_succ, hi.1]
        · rw [if_neg hf] at h
          simp at h
      · rw [if_neg h5] at h
        injection h with h2
        subst h2
        exact hi

/-- The loop of `Run` preserves its invariant while it keeps running. -/
theorem runFrom_inv (cfg : Poller.RunCfg) (events : List Poller.Event) :
    ∀ st st2, Poller.Inv st → Poller.runFrom cfg st events = .running st2 →
      Poller.Inv st2 := by
  induction events with
  | nil =>
    intro st st2 hi h
    rw [show Poller.runFrom cfg st [] = .running st from rfl] at h
    injection h with h2
    subst h2
    exact hi
  | cons e rest ih =>
    intro st st2 hi h
    simp only [Poller.runFrom] at h
    cases hs : Poller.step cfg st e with
    | cont s =>
      rw [hs] at h
      exact ih s st2 (step_cont_inv cfg st s e hi hs) h
    | stop r c =>
      rw [hs] at h
      simp at h

/-- Appending a cancellation event to a schedule that leaves the loop
running makes the run finish cleanly, closing the active client. -/
theorem runFrom_cancel (cfg : Poller.RunCfg) (events : List Poller.Event) :
    ∀ st st2, Poller.runFrom cfg st events = .running st2 →
      Poller.runFrom cfg st (events ++ [Poller.Event.cancel]) =
        .finished (.ok ()) (st2.closed ++ [st2.client]) := by
  induction events with
  | nil =>
    intro st st2 h
    rw [show Poller.runFrom cfg st [] = .running st from rfl] at h
    injection h with h2
    subst h2
    rfl
  | cons e rest ih =>
    intro st st2 h
    simp only [Poller.runFrom] at h
    simp only [List.cons_append, Poller.runFrom]
    cases hs : Poller.step cfg st e with
    | cont s =>
      rw [hs] at h
      exact ih s st2 h
    | stop r c =>
      rw [hs] at h
      simp at h

/-- C5: cancellation shutdown.  Whenever the loop of `Run` is still live
after any schedule of events, delivering the cancellation signal makes
the run return with no error, and the active session is closed, observed
exactly once on that session across the whole run. -/
theorem C5_cancellation (cfg : Poller.RunCfg) (events : List Poller.Event)
    (st2 : Poller.LoopState)
    (h : Poller.Run cfg events = .running st2) :
    Poller.Run cfg (events ++ [Poller.Event.cancel]) =
      .finished (.ok ()) (st2.closed ++ [st2.client])
    ∧ List.count st2.client (st2.closed ++ [st2.client]) = 1 := by
  by_cases hf : cfg.factoryOk 0 = true
  · simp only [Poller.Run, if_pos hf] at h ⊢
    have hinv : Poller.Inv st2 := runFrom_inv cfg events ⟨0, 1, 0, []⟩ st2 ⟨rfl, rfl⟩ h
    refine ⟨runFrom_cancel cfg events ⟨0, 1, 0, []⟩ st2 h, ?_⟩
    rw [hinv.2]
    have hz : List.count st2.client (List.range st2.client) = 0 :=
      List.count_eq_zero.mpr (by simp)
    simp [List.count_append, hz]
  · simp only [Poller.Run, if_neg hf] at h
    simp at h

/-- C5 witness: cancelling immediately after a fresh start closes the
initial session once and ends the run without error. -/
theorem C5_cancellation_witness :
    Poller.Run ⟨fun _ => true⟩ ([] ++ [Poller.Event.cancel]) = .finished (.ok ()) ([] ++ [0])
    ∧ List.count 0 (([] : List Nat) ++ [0]) = 1 :=
  C5_cancellation ⟨fun _ => true⟩ [] ⟨0, 1, 0, []⟩ rfl

/-- C8 counterexample: with a stale state marker on disk and the state
marker write failing, `Run` returns with the state marker still present,
so it is not the case that both markers are removed on every exit path
once the PID marker was written. -/
theorem C8_counterexample :
    ¬ ((Daemon.Run ⟨0, true, false, .ok ()⟩ 42 ("/out") ⟨none, some ("/stale")⟩).markers.state
        = none) := by decide

/-- C8 amended: once the PID marker is written, it is removed before
`Run` returns on every exit path regardless of how `pollFn` returns, and
the state marker is removed on every exit path on which its write
succeeded; on the path where writing the state marker fails, `Run`
returns that error with the PID marker removed, `pollFn` not invoked,
and the state marker file left as it was. -/
theorem C8_marker_cleanup (env : Daemon.RunEnv) (selfPid : Nat) (dir : String)
    (m : Daemon.Markers)
    (h0 : env.runningPID = 0) (hp : env.pidWriteOk = true) :
    (Daemon.Run env selfPid dir m).markers.pid = none
    ∧ (env.stateWriteOk = true →
        Daemon.Run env selfPid dir m =
          ⟨env.pollRes, ⟨none, none⟩, some ⟨some selfPid, some dir⟩⟩)
    ∧ (env.stateWriteOk = false →
        Daemon.Run env selfPid dir m =
          ⟨.error ("Failed to write state file"), ⟨none, m.state⟩, none⟩) := by
  obtain ⟨rp, pw, sw, pr⟩ := env
  dsimp only at h0 hp
  subst h0
  subst hp
  cases sw <;> refine ⟨?_, ?_, ?_⟩ <;> simp [Daemon.Run]

/-- C8 amended witness: a normal run with no stale markers removes both
markers, having held them while the poll function ran. -/
theorem C8_marker_cleanup_witness :
    (Daemon.Run ⟨0, true, true, .ok ()⟩ 7 ("/out") ⟨none, none⟩).markers.pid = none
    ∧ Daemon.Run ⟨0, true, true, .ok ()⟩ 7 ("/out") ⟨none, none⟩ =
        ⟨.ok (), ⟨none, none⟩, some ⟨some 7, some ("/out")⟩⟩ := by
  have h := C8_marker_cleanup ⟨0, true, true, .ok ()⟩ 7 ("/out") ⟨none, none⟩ rfl rfl
  exact ⟨h.1, h.2.1 rfl⟩

/-- C10 witness: the empty image in an empty directory, next to a `NONE`
response. -/
theorem C10_empty_payload_witness :
    Clipboard.Check ⟨true, [("IMAGE"), (""), ("END")], none⟩ = .ok (some [])
    ∧ (Poller.poll ⟨.ok (some []), true, .ok ("C:o"), .ok ()⟩ ("/o") []).fs =
        (Poller.joinPath ("/o") (Poller.hashBytes [] ++ (".png")), ([] : List Nat)) :: []
    ∧ Poller.poll ⟨.ok none, true, .ok ("C:o"), .ok ()⟩ ("/o") [] = ⟨.ok (), [], false⟩ := by
  have h := C10_empty_payload none ("/o") [] ⟨.ok (some []), true, .ok ("C:o"), .ok ()⟩
    ⟨.ok none, true, .ok ("C:o"), .ok ()⟩ rfl rfl rfl rfl
  exact ⟨h.1, h.2.2.1, h.2.2.2.2⟩

end WslShot
